import Mathlib

/-!
# TM-sequence fusion tables (`forge/csrc/passes/fuse_redundant_tm_sequence.hpp`)

A shallow embedding of the operator signature `OpTypeItem`, its two
constructors, `as_op_type`, and the static pattern / replacement tables
together with the registry `pattern_map`.

The header only declares the pass entry point `fuse_tm_sequences`; the
collaborating types `graphlib::OpType`, `ops::OpType` and `OpType::Attr`
come from headers that are not part of this development and are modelled
from the specification where marked.
-/

namespace tt

namespace ops

/-- Modelled from the spec: the closed enumeration of operator kinds
`ops::OpType` (declared in `ops/op.hpp`).  The pass only tells `Transpose`
apart from everything else; the recognised TM kinds are named and every
other kind is kept by its name. -/
inductive OpType where
  | Reshape : OpType
  | Transpose : OpType
  | Other (name : String) : OpType
  deriving DecidableEq, Repr

/-- Modelled from the spec: the kind an operator name denotes, as computed
when a `graphlib::OpType` is built from a name (declared in `ops/op.hpp`). -/
def kind_of_name (name : String) : OpType :=
  if name = "transpose" then OpType.Transpose
  else if name = "reshape" then OpType.Reshape
  else OpType.Other name

end ops

namespace graphlib

/-- Modelled from the spec: the attribute value `OpType::Attr`, a tagged
union of an integer or an ordered list of integers (declared with
`graphlib::OpType`). -/
inductive Attr where
  | int (i : Int) : Attr
  | intList (l : List Int) : Attr
  deriving DecidableEq, Repr

/-- Modelled from the spec: the graph operator `graphlib::OpType`: its name,
its kind, its ordered legacy attribute list `legacy_attrs_` and its named
attributes (an association from attribute name to value). -/
structure OpType where
  op_ : String
  type_ : ops.OpType
  legacy_attrs_ : List Attr
  named_attrs_ : List (String × Attr)
  deriving DecidableEq, Repr

namespace OpType

/-- Accessor `OpType::name()`. -/
def name (op : OpType) : String := op.op_

/-- Accessor `OpType::type()`. -/
def type (op : OpType) : ops.OpType := op.type_

/-- Lookup `OpType::attr_as<int>(key)`: the named attribute `key` read as an
integer; `none` stands for the failure raised when the attribute is absent
or does not hold an integer. -/
def attr_as_int (op : OpType) (key : String) : Option Int :=
  match op.named_attrs_.lookup key with
  | some (Attr.int i) => some i
  | _ => none

/-- Modelled from the spec: the constructor
`graphlib::OpType(op, attrs, named_attrs)`; it keeps the name, the ordered
attribute list and the named attributes, and derives the kind from the
name. -/
def create (op : String) (attrs : List Attr) (named : List (String × Attr)) : OpType :=
  { op_ := op, type_ := ops.kind_of_name op, legacy_attrs_ := attrs, named_attrs_ := named }

end OpType

end graphlib

namespace passes

/-- The header's `using OpType = tt::graphlib::OpType`. -/
abbrev OpType := graphlib.OpType

open graphlib (Attr)

/-- Operator signature `struct OpTypeItem`; the three-argument constructor
`OpTypeItem(op_name, attrs, check_attrs)` is the structure constructor. -/
structure OpTypeItem where
  op_name : String
  attrs : List Attr
  check_attrs : Bool
  deriving DecidableEq, Repr

namespace OpTypeItem

/-- Constructor `OpTypeItem(OpType const& op_type, bool check_attrs)`.  For a
`Transpose` operator the attributes are `dim0` and `dim1` read as integers
(the construction fails when either read fails); for every other kind they
are the legacy attribute list. -/
def of_op_type (op_type : OpType) (check_attrs : Bool) : Option OpTypeItem :=
  if op_type.type = ops.OpType.Transpose then
    match op_type.attr_as_int "dim0", op_type.attr_as_int "dim1" with
    | some d0, some d1 =>
        some { op_name := op_type.name, attrs := [Attr.int d0, Attr.int d1],
               check_attrs := check_attrs }
    | _, _ => none
  else
    some { op_name := op_type.name, attrs := op_type.legacy_attrs_,
           check_attrs := check_attrs }

/-- Method `OpTypeItem::as_op_type()`.  For the name `"transpose"` the
operator is built with an empty attribute list and the named attributes
`dim0 = std::get<int>(attrs[0])`, `dim1 = std::get<int>(attrs[1])`; `none`
stands for an access past the end of `attrs` or a `std::get<int>` on a value
that is not an integer.  For any other name the operator is built from the
name and the attribute list. -/
def as_op_type (s : OpTypeItem) : Option OpType :=
  if s.op_name = "transpose" then
    match s.attrs[0]?, s.attrs[1]? with
    | some (Attr.int d0), some (Attr.int d1) =>
        some (graphlib.OpType.create s.op_name []
                [("dim0", Attr.int d0), ("dim1", Attr.int d1)])
    | _, _ => none
  else
    some (graphlib.OpType.create s.op_name s.attrs [])

end OpTypeItem

/-- The header's `using TMPattern = std::vector<OpTypeItem>`. -/
abbrev TMPattern := List OpTypeItem

/-- The header's `using TMPatternPairs = std::vector<std::pair<TMPattern, TMPattern>>`. -/
abbrev TMPatternPairs := List (TMPattern × TMPattern)

/-- A brace list of integers `{a, b, ...}` converted to `std::vector<OpType::Attr>`. -/
def ints (l : List Int) : List Attr := l.map Attr.int

def pattern_1 : TMPattern :=
  [ OpTypeItem.mk "reshape" (ints []) false,
    OpTypeItem.mk "transpose" (ints [-3, -1]) true,
    OpTypeItem.mk "transpose" (ints [-2, -1]) true,
    OpTypeItem.mk "reshape" (ints []) false ]

def replace_1 : TMPattern :=
  [ OpTypeItem.mk "transpose" (ints [-2, -1]) true ]

def pattern_2 : TMPattern :=
  [ OpTypeItem.mk "transpose" (ints [-2, -1]) true,
    OpTypeItem.mk "reshape" (ints []) false,
    OpTypeItem.mk "transpose" (ints [-3, -2]) true,
    OpTypeItem.mk "transpose" (ints [-2, -1]) true,
    OpTypeItem.mk "reshape" (ints []) false ]

def replace_2_0 : TMPattern := [ OpTypeItem.mk "reshape" (ints [1, 2166, 21]) false ]
def replace_2_1 : TMPattern := [ OpTypeItem.mk "reshape" (ints [1, 600, 21]) false ]
def replace_2_2 : TMPattern := [ OpTypeItem.mk "reshape" (ints [1, 150, 21]) false ]
def replace_2_3 : TMPattern := [ OpTypeItem.mk "reshape" (ints [1, 54, 21]) false ]
def replace_2_4 : TMPattern := [ OpTypeItem.mk "reshape" (ints [1, 24, 21]) false ]
def replace_2_5 : TMPattern := [ OpTypeItem.mk "reshape" (ints [1, 6, 21]) false ]
def replace_2_6 : TMPattern := [ OpTypeItem.mk "reshape" (ints [1, 2166, 4]) false ]
def replace_2_7 : TMPattern := [ OpTypeItem.mk "reshape" (ints [1, 600, 4]) false ]
def replace_2_8 : TMPattern := [ OpTypeItem.mk "reshape" (ints [1, 150, 4]) false ]
def replace_2_9 : TMPattern := [ OpTypeItem.mk "reshape" (ints [1, 54, 4]) false ]
def replace_2_10 : TMPattern := [ OpTypeItem.mk "reshape" (ints [1, 24, 4]) false ]
def replace_2_11 : TMPattern := [ OpTypeItem.mk "reshape" (ints [1, 6, 4]) false ]
def replace_2_12 : TMPattern := [ OpTypeItem.mk "reshape" (ints [1, 384, 12]) false ]
def replace_2_13 : TMPattern := [ OpTypeItem.mk "reshape" (ints [1, 512, 12]) false ]
def replace_2_14 : TMPattern := [ OpTypeItem.mk "reshape" (ints [1, 384, 1]) false ]
def replace_2_15 : TMPattern := [ OpTypeItem.mk "reshape" (ints [1, 512, 1]) false ]

def pattern_3 : TMPattern :=
  [ OpTypeItem.mk "transpose" (ints [-2, -1]) true,
    OpTypeItem.mk "reshape" (ints []) false,
    OpTypeItem.mk "transpose" (ints [-4, -2]) true,
    OpTypeItem.mk "transpose" (ints [-3, -1]) true,
    OpTypeItem.mk "reshape" (ints []) false ]

def replace_3_0 : TMPattern := [ OpTypeItem.mk "reshape" (ints [1, 90000, 91]) false ]
def replace_3_1 : TMPattern := [ OpTypeItem.mk "reshape" (ints [1, 22500, 91]) false ]
def replace_3_2 : TMPattern := [ OpTypeItem.mk "reshape" (ints [1, 5625, 91]) false ]
def replace_3_3 : TMPattern := [ OpTypeItem.mk "reshape" (ints [1, 1521, 91]) false ]
def replace_3_4 : TMPattern := [ OpTypeItem.mk "reshape" (ints [1, 441, 91]) false ]
def replace_3_5 : TMPattern := [ OpTypeItem.mk "reshape" (ints [1, 90000, 4]) false ]
def replace_3_6 : TMPattern := [ OpTypeItem.mk "reshape" (ints [1, 22500, 4]) false ]
def replace_3_7 : TMPattern := [ OpTypeItem.mk "reshape" (ints [1, 5625, 4]) false ]
def replace_3_8 : TMPattern := [ OpTypeItem.mk "reshape" (ints [1, 1521, 4]) false ]
def replace_3_9 : TMPattern := [ OpTypeItem.mk "reshape" (ints [1, 441, 4]) false ]

def pattern_4 : TMPattern :=
  [ OpTypeItem.mk "transpose" (ints [-2, -1]) true,
    OpTypeItem.mk "reshape" (ints []) false,
    OpTypeItem.mk "transpose" (ints [-3, -2]) true,
    OpTypeItem.mk "transpose" (ints [-2, -1]) true ]

def pattern_map : TMPatternPairs :=
  [ (pattern_1, replace_1),    (pattern_2, replace_2_0),  (pattern_2, replace_2_1),
    (pattern_2, replace_2_2),  (pattern_2, replace_2_3),  (pattern_2, replace_2_4),
    (pattern_2, replace_2_5),  (pattern_2, replace_2_6),  (pattern_2, replace_2_7),
    (pattern_2, replace_2_8),  (pattern_2, replace_2_9),  (pattern_2, replace_2_10),
    (pattern_2, replace_2_11), (pattern_2, replace_2_12), (pattern_2, replace_2_13),
    (pattern_2, replace_2_14), (pattern_2, replace_2_15), (pattern_3, replace_3_0),
    (pattern_3, replace_3_1),  (pattern_3, replace_3_2),  (pattern_3, replace_3_3),
    (pattern_3, replace_3_4),  (pattern_3, replace_3_5),  (pattern_3, replace_3_6),
    (pattern_3, replace_3_7),  (pattern_3, replace_3_8),  (pattern_3, replace_3_9) ]

/-- The four patterns the header declares, in declaration order. -/
def builtin_patterns : List TMPattern := [pattern_1, pattern_2, pattern_3, pattern_4]

/-- Whether an attribute value holds an integer (`std::holds_alternative<int>`). -/
def is_int : Attr → Bool
  | Attr.int _ => true
  | Attr.intList _ => false

/-- Whether an attribute list is exactly two integers. -/
def is_two_ints : List Attr → Bool
  | [Attr.int _, Attr.int _] => true
  | _ => false

/-- Whether a chain ends in a signature that carries a concrete shape: its
final signature is a `"reshape"` whose attribute list is a non-empty list of
integers. -/
def has_concrete_shape (r : TMPattern) : Bool :=
  match r.getLast? with
  | some last => decide (last.op_name = "reshape") && !last.attrs.isEmpty && last.attrs.all is_int
  | none => false

/-- Modelled from the spec: the signature comparison of the matcher (its
definition lives in the pass implementation, which the header only
declares): names equal, and attributes equal element-wise unless the
pattern signature's strict flag `check_attrs` is false. -/
def sig_match (pat node : OpTypeItem) : Bool :=
  decide (pat.op_name = node.op_name) && (!pat.check_attrs || decide (pat.attrs = node.attrs))

/-- Modelled from the spec: a pattern matches a chain of node signatures when
both have the same length and the signatures match at every position. -/
def pattern_match (pat chain : TMPattern) : Bool :=
  decide (pat.length = chain.length) && (pat.zip chain).all (fun pn => sig_match pn.1 pn.2)

/-- All runs of `k` consecutive signatures of a chain, leftmost first. -/
def windows (k : Nat) (chain : TMPattern) : List TMPattern :=
  (List.range (chain.length + 1 - k)).map (fun i => (chain.drop i).take k)

/-- The replacements registered for a pattern, in registration order; patterns
are compared structurally. -/
def replacements_for (pm : TMPatternPairs) (pat : TMPattern) : List TMPattern :=
  (pm.filter (fun e => decide (e.1 = pat))).map Prod.snd

/-- Modelled from the spec: the scan over shape-specialised variants (part of
the pass implementation, which the header only declares): the first
replacement, in registration order, whose final signature's attributes equal
the required output shape dimension for dimension. -/
def scan_variants (rs : List TMPattern) (shape : List Int) : Option TMPattern :=
  rs.find? (fun r =>
    match r.getLast? with
    | some last => decide (last.attrs = ints shape)
    | none => false)

/-- Modelled from the spec: the replacement selector (part of the pass
implementation, which the header only declares): a pattern with a single
registered replacement uses it unconditionally; with several, the variants
are scanned for the required output shape; with none, nothing is selected. -/
def select_replacement (pm : TMPatternPairs) (pat : TMPattern) (shape : List Int) :
    Option TMPattern :=
  match replacements_for pm pat with
  | [] => none
  | [r] => some r
  | rs => scan_variants rs shape

/-- The sixteen output shapes registered for `pattern_2`, in registration order. -/
def registered_shapes_2 : List (List Int) :=
  [ [1, 2166, 21], [1, 600, 21], [1, 150, 21], [1, 54, 21], [1, 24, 21], [1, 6, 21],
    [1, 2166, 4],  [1, 600, 4],  [1, 150, 4],  [1, 54, 4],  [1, 24, 4],  [1, 6, 4],
    [1, 384, 12],  [1, 512, 12], [1, 384, 1],  [1, 512, 1] ]

/-- A chain of node signatures shaped like `pattern_2`: the two reshape nodes
carry arbitrary attributes and every node an arbitrary flag. -/
def pattern_2_chain (a b : List Attr) (c0 c1 c2 c3 c4 : Bool) : TMPattern :=
  [ OpTypeItem.mk "transpose" (ints [-2, -1]) c0,
    OpTypeItem.mk "reshape" a c1,
    OpTypeItem.mk "transpose" (ints [-3, -2]) c2,
    OpTypeItem.mk "transpose" (ints [-2, -1]) c3,
    OpTypeItem.mk "reshape" b c4 ]

/-- The attributes of a chain's final signature (for a shape-specialised
replacement, its concrete shape); `none` for an empty chain. -/
def final_attrs (r : TMPattern) : Option (List Attr) :=
  r.getLast?.map (fun last => last.attrs)

/-- Two registry entries, when they share a pattern, end in different
attributes. -/
def variants_differ (e1 e2 : TMPattern × TMPattern) : Prop :=
  e1.1 = e2.1 → final_attrs e1.2 ≠ final_attrs e2.2

/-- Whether two patterns exclude each other at position `i`: both have a
signature there, and the names differ or both signatures are strict with
different attributes. -/
def conflict_at (p q : TMPattern) (i : Nat) : Bool :=
  match p[i]?, q[i]? with
  | some a, some b =>
      decide (a.op_name ≠ b.op_name) ||
        (a.check_attrs && b.check_attrs && decide (a.attrs ≠ b.attrs))
  | _, _ => false

/-- Modelled from the spec: matching a pattern of length `k` at an anchor
(part of the pass implementation, which the header only declares): the `k`
consecutive node signatures starting at the anchor are matched by the
pattern.  The chain is the run of node signatures from the anchor on. -/
def matches_at_anchor (pat chain : TMPattern) : Bool :=
  pattern_match pat (chain.take pat.length)

/-- Modelled from the spec: the pattern that applies at an anchor (part of
the pass implementation, which the header only declares): the first
pattern of the registry, in registration order, that matches there. -/
def first_matching_pattern (pm : TMPatternPairs) (chain : TMPattern) : Option TMPattern :=
  (pm.map Prod.fst).find? (fun pat => matches_at_anchor pat chain)

/-- A chain of four node signatures shaped like `pattern_4`: the reshape node
carries arbitrary attributes and every node an arbitrary flag. -/
def pattern_4_chain (a : List Attr) (c0 c1 c2 c3 : Bool) : TMPattern :=
  [ OpTypeItem.mk "transpose" (ints [-2, -1]) c0,
    OpTypeItem.mk "reshape" a c1,
    OpTypeItem.mk "transpose" (ints [-3, -2]) c2,
    OpTypeItem.mk "transpose" (ints [-2, -1]) c3 ]

/-- A transpose operator of the graph with axes `-2` and `-1` held as named
attributes and a stray legacy attribute list. -/
def sample_transpose_op : OpType :=
  { op_ := "transpose", type_ := ops.OpType.Transpose,
    legacy_attrs_ := [Attr.int 7, Attr.intList [1, 2]],
    named_attrs_ := [("dim0", Attr.int (-2)), ("dim1", Attr.int (-1))] }

/-- **C1.** Building a signature from a graph operator keeps the operator's
name and the given flag.  For an operator that is not a `Transpose` the
attributes are its legacy attribute list, unchanged; for a `Transpose` whose
named attributes `dim0` and `dim1` are the integers `d0` and `d1` the
attributes are exactly `[d0, d1]`, whatever the legacy list holds.
Conversely every signature the constructor returns has the operator's name,
the flag, and these attributes. -/
theorem of_op_type_spec (op : OpType) (c : Bool) :
    (op.type ≠ ops.OpType.Transpose →
        OpTypeItem.of_op_type op c = some ⟨op.name, op.legacy_attrs_, c⟩) ∧
    (op.type = ops.OpType.Transpose → ∀ d0 d1 : Int,
        op.attr_as_int "dim0" = some d0 → op.attr_as_int "dim1" = some d1 →
        OpTypeItem.of_op_type op c = some ⟨op.name, [Attr.int d0, Attr.int d1], c⟩) ∧
    (∀ s, OpTypeItem.of_op_type op c = some s →
        s.op_name = op.name ∧ s.check_attrs = c ∧
        (op.type = ops.OpType.Transpose → ∃ d0 d1 : Int,
          op.attr_as_int "dim0" = some d0 ∧ op.attr_as_int "dim1" = some d1 ∧
          s.attrs = [Attr.int d0, Attr.int d1]) ∧
        (op.type ≠ ops.OpType.Transpose → s.attrs = op.legacy_attrs_)) := by
  refine ⟨?_, ?_, ?_⟩
  · intro h
    simp [OpTypeItem.of_op_type, h]
  · intro h d0 d1 h0 h1
    simp [OpTypeItem.of_op_type, h, h0, h1]
  · intro s hs
    unfold OpTypeItem.of_op_type at hs
    split at hs
    · next ht =>
      split at hs
      · next d0 d1 h0 h1 =>
        cases hs
        exact ⟨rfl, rfl, fun _ => ⟨d0, d1, h0, h1, rfl⟩, fun hne => absurd ht hne⟩
      · cases hs
    · next ht =>
      cases hs
      exact ⟨rfl, rfl, fun h => absurd h ht, fun _ => rfl⟩

/-- Instance of `of_op_type_spec` at `sample_transpose_op`: the legacy list
`[7, [1, 2]]` is ignored and the signature holds the axes `[-2, -1]`. -/
theorem of_op_type_spec_witness :
    OpTypeItem.of_op_type sample_transpose_op true
      = some ⟨"transpose", [Attr.int (-2), Attr.int (-1)], true⟩ :=
  (of_op_type_spec sample_transpose_op true).2.1 rfl (-2) (-1) rfl rfl

/-- **C2.** Every signature named `"transpose"` in the four declared patterns
and in every registered replacement has attributes that are exactly two
integers, and `as_op_type` is defined on every signature of every pattern
and every replacement of `pattern_map`. -/
theorem transpose_attrs_two_ints :
    (∀ p ∈ builtin_patterns, ∀ s ∈ p, s.op_name = "transpose" → is_two_ints s.attrs = true) ∧
    (∀ e ∈ pattern_map, ∀ s ∈ e.2, s.op_name = "transpose" → is_two_ints s.attrs = true) ∧
    (∀ e ∈ pattern_map, (∀ s ∈ e.1, (OpTypeItem.as_op_type s).isSome = true) ∧
        (∀ s ∈ e.2, (OpTypeItem.as_op_type s).isSome = true)) := by
  refine ⟨?_, ?_, ?_⟩ <;> decide

/-- Instance of `transpose_attrs_two_ints` at the second signature of
`pattern_1`, `transpose(-3, -1)`. -/
theorem transpose_attrs_two_ints_witness :
    is_two_ints (ints [-3, -1]) = true :=
  transpose_attrs_two_ints.1 pattern_1 (by decide)
    (OpTypeItem.mk "transpose" (ints [-3, -1]) true) (by decide) rfl

/-- **C3.** The strict flag plays no part when a replacement node is
constructed: two signatures with the same name and the same attributes yield
the same result of `as_op_type`, whatever their flags.  An operator is
constructed, the same one from both, for every name other than `"transpose"`
and for `"transpose"` whenever `attrs[0]` and `attrs[1]` hold integers.  The
constructed operator carries the signature's name; for the name
`"transpose"` its named attributes are `dim0 = attrs[0]` and
`dim1 = attrs[1]` (and its attribute list is empty); for any other name its
attribute list is the signature's attribute list (and it has no named
attributes).  Every operator `as_op_type` returns is of this form. -/
theorem as_op_type_ignores_flag (a b : OpTypeItem)
    (hn : a.op_name = b.op_name) (ha : a.attrs = b.attrs) :
    OpTypeItem.as_op_type a = OpTypeItem.as_op_type b ∧
    (a.op_name ≠ "transpose" → ∃ op,
      OpTypeItem.as_op_type a = some op ∧ OpTypeItem.as_op_type b = some op ∧
      op.name = a.op_name ∧ op.legacy_attrs_ = a.attrs ∧ op.named_attrs_ = []) ∧
    (a.op_name = "transpose" → ∀ d0 d1 : Int,
      a.attrs[0]? = some (Attr.int d0) → a.attrs[1]? = some (Attr.int d1) → ∃ op,
      OpTypeItem.as_op_type a = some op ∧ OpTypeItem.as_op_type b = some op ∧
      op.name = a.op_name ∧
      op.named_attrs_ = [("dim0", Attr.int d0), ("dim1", Attr.int d1)] ∧
      op.legacy_attrs_ = []) ∧
    (∀ op, OpTypeItem.as_op_type a = some op →
      op.name = a.op_name ∧
      (a.op_name = "transpose" → ∃ d0 d1 : Int,
          a.attrs[0]? = some (Attr.int d0) ∧ a.attrs[1]? = some (Attr.int d1) ∧
          op.named_attrs_ = [("dim0", Attr.int d0), ("dim1", Attr.int d1)] ∧
          op.legacy_attrs_ = []) ∧
      (a.op_name ≠ "transpose" → op.legacy_attrs_ = a.attrs ∧ op.named_attrs_ = [])) := by
  have heq : OpTypeItem.as_op_type a = OpTypeItem.as_op_type b := by
    simp only [OpTypeItem.as_op_type, hn, ha]
  refine ⟨heq, ?_, ?_, ?_⟩
  · intro hne
    have hsome : OpTypeItem.as_op_type a
        = some (graphlib.OpType.create a.op_name a.attrs []) := by
      simp only [OpTypeItem.as_op_type, if_neg hne]
    exact ⟨graphlib.OpType.create a.op_name a.attrs [], hsome, heq ▸ hsome, rfl, rfl, rfl⟩
  · intro ht d0 d1 h0 h1
    have hsome : OpTypeItem.as_op_type a
        = some (graphlib.OpType.create a.op_name []
            [("dim0", Attr.int d0), ("dim1", Attr.int d1)]) := by
      simp only [OpTypeItem.as_op_type, if_pos ht, h0, h1]
    exact ⟨_, hsome, heq ▸ hsome, rfl, rfl, rfl⟩
  · intro op hop
    unfold OpTypeItem.as_op_type at hop
    split at hop
    · next ht =>
      split at hop
      · next d0 d1 h0 h1 =>
        cases hop
        refine ⟨rfl, fun _ => ⟨d0, d1, h0, h1, rfl, rfl⟩, fun hne => absurd ht hne⟩
      · cases hop
    · next ht =>
      cases hop
      exact ⟨rfl, fun h => absurd h ht, fun _ => ⟨rfl, rfl⟩⟩

/-- Instance of `as_op_type_ignores_flag`: `transpose(-2, -1)` with the flag
set and with the flag cleared both build one and the same operator, named
`"transpose"`, with the named attributes `dim0 = -2` and `dim1 = -1` and an
empty attribute list. -/
theorem as_op_type_ignores_flag_witness :
    ∃ op,
      OpTypeItem.as_op_type (OpTypeItem.mk "transpose" (ints [-2, -1]) true) = some op ∧
      OpTypeItem.as_op_type (OpTypeItem.mk "transpose" (ints [-2, -1]) false) = some op ∧
      op.name = "transpose" ∧
      op.named_attrs_ = [("dim0", Attr.int (-2)), ("dim1", Attr.int (-1))] ∧
      op.legacy_attrs_ = [] :=
  (as_op_type_ignores_flag (OpTypeItem.mk "transpose" (ints [-2, -1]) true)
    (OpTypeItem.mk "transpose" (ints [-2, -1]) false) rfl rfl).2.2.1 rfl (-2) (-1) rfl rfl

/-- **C4.** In `pattern_map` the chain
`[reshape, transpose(-3,-1), transpose(-2,-1), reshape]` is `pattern_1`, it
has exactly one registered replacement, that replacement is the
single-signature chain `[transpose(-2,-1)]`, and the selector resolves
`pattern_1` to it for every required output shape. -/
theorem pattern_1_single_replacement :
    pattern_1 = [ OpTypeItem.mk "reshape" [] false,
                  OpTypeItem.mk "transpose" [Attr.int (-3), Attr.int (-1)] true,
                  OpTypeItem.mk "transpose" [Attr.int (-2), Attr.int (-1)] true,
                  OpTypeItem.mk "reshape" [] false ] ∧
    replacements_for pattern_map pattern_1
      = [[OpTypeItem.mk "transpose" [Attr.int (-2), Attr.int (-1)] true]] ∧
    (∀ shape : List Int, select_replacement pattern_map pattern_1 shape
      = some [OpTypeItem.mk "transpose" [Attr.int (-2), Attr.int (-1)] true]) := by
  have h : replacements_for pattern_map pattern_1
      = [[OpTypeItem.mk "transpose" [Attr.int (-2), Attr.int (-1)] true]] := by decide
  refine ⟨rfl, h, ?_⟩
  intro shape
  simp only [select_replacement, h]

/-- The conversion of a brace list of integers to attribute values loses
nothing. -/
theorem ints_injective {a b : List Int} (h : ints a = ints b) : a = b := by
  have hinj : Function.Injective Attr.int := fun x y hxy => by cases hxy; rfl
  exact List.map_injective_iff.mpr hinj h

/-- The replacements registered for `pattern_2`, in registration order. -/
theorem replacements_for_pattern_2 :
    replacements_for pattern_map pattern_2 = registered_shapes_2.map
      (fun shape => [OpTypeItem.mk "reshape" (ints shape) false]) := by
  decide

/-- Scanning a list of single-reshape variants for a shape that is not among
them selects nothing. -/
theorem scan_variants_none (shapes : List (List Int)) (shape : List Int)
    (h : shape ∉ shapes) :
    scan_variants (shapes.map (fun t => [OpTypeItem.mk "reshape" (ints t) false])) shape
      = none := by
  unfold scan_variants
  rw [List.find?_eq_none]
  intro r hr
  obtain ⟨t, ht, rfl⟩ := List.mem_map.mp hr
  simp only [List.getLast?_singleton, decide_eq_true_eq]
  intro heq
  exact h (ints_injective heq ▸ ht)

/-- **C5.** For `pattern_2` and every required output shape: scanning the
replacements registered for `pattern_2` in registration order for the first
whose final signature's attributes equal the shape returns the single
reshape signature with that shape when the shape is one of the sixteen
registered shapes (the shapes of the sixteen replacements of `pattern_2`),
and nothing otherwise; the selector returns the same.
In particular `[1, 2166, 21]` selects the single reshape with attributes
`[1, 2166, 21]`, and `[1, 2166, 99]` selects nothing. -/
theorem pattern_2_selection :
    (replacements_for pattern_map pattern_2).length = 16 ∧
    replacements_for pattern_map pattern_2
      = registered_shapes_2.map (fun shape => [OpTypeItem.mk "reshape" (ints shape) false]) ∧
    (∀ shape : List Int,
      scan_variants (replacements_for pattern_map pattern_2) shape
        = (if shape ∈ registered_shapes_2
           then some [OpTypeItem.mk "reshape" (ints shape) false] else none) ∧
      select_replacement pattern_map pattern_2 shape
        = scan_variants (replacements_for pattern_map pattern_2) shape) ∧
    select_replacement pattern_map pattern_2 [1, 2166, 21]
      = some [OpTypeItem.mk "reshape" [Attr.int 1, Attr.int 2166, Attr.int 21] false] ∧
    select_replacement pattern_map pattern_2 [1, 2166, 99] = none := by
  refine ⟨by decide, replacements_for_pattern_2, ?_, by decide, by decide⟩
  intro shape
  constructor
  · by_cases h : shape ∈ registered_shapes_2
    · rw [if_pos h]
      revert shape
      decide
    · rw [if_neg h, replacements_for_pattern_2]
      exact scan_variants_none registered_shapes_2 shape h
  · simp only [select_replacement, replacements_for_pattern_2, registered_shapes_2, List.map]

/-- **C6.** The registry holds no malformed entry: whenever the pattern of an
entry of `pattern_map` has more than one replacement registered, the entry's
replacement ends in a signature that carries a concrete shape (a `"reshape"`
whose attributes are a non-empty list of integers). -/
theorem multi_variant_has_concrete_shape :
    ∀ e ∈ pattern_map, 1 < (replacements_for pattern_map e.1).length →
      has_concrete_shape e.2 = true := by
  decide

/-- Instance of `multi_variant_has_concrete_shape` at the entry
`(pattern_2, replace_2_0)`; `pattern_2` has sixteen replacements. -/
theorem multi_variant_has_concrete_shape_witness :
    1 < (replacements_for pattern_map pattern_2).length ∧
      has_concrete_shape replace_2_0 = true :=
  ⟨by decide,
   multi_variant_has_concrete_shape (pattern_2, replace_2_0) (by decide) (by decide)⟩

/-- **C7.** No rewrite licensed by the registry grows the node count: in every
entry of `pattern_map` the replacement is no longer than the pattern; in
fact the replacement has length 1 and the pattern length at least 4, so at
least 3 nodes are removed. -/
theorem replacement_not_longer :
    ∀ e ∈ pattern_map, e.2.length ≤ e.1.length ∧ e.2.length = 1 ∧ 4 ≤ e.1.length ∧
      3 ≤ e.1.length - e.2.length := by
  decide

/-- Instance of `replacement_not_longer` at the entry `(pattern_1, replace_1)`. -/
theorem replacement_not_longer_witness :
    replace_1.length ≤ pattern_1.length ∧ replace_1.length = 1 ∧ 4 ≤ pattern_1.length ∧
      3 ≤ pattern_1.length - replace_1.length :=
  replacement_not_longer (pattern_1, replace_1) (by decide)

/-- **C8.** No replacement chain of the registry is matched by a registered
pattern: for every replacement and every pattern occurring in `pattern_map`,
the pattern does not match the replacement's chain of signatures. -/
theorem replacement_never_rematches :
    ∀ er ∈ pattern_map, ∀ ep ∈ pattern_map, pattern_match ep.1 er.2 = false := by
  decide

/-- Instance of `replacement_never_rematches`: `pattern_1` does not match its
own replacement `replace_1`. -/
theorem replacement_never_rematches_witness :
    pattern_match pattern_1 replace_1 = false :=
  replacement_never_rematches (pattern_1, replace_1) (by decide)
    (pattern_1, replace_1) (by decide)

/-- **C9.** `pattern_1` matches no run of 4 consecutive signatures of a chain
`[transpose(-2,-1), reshape, transpose(-3,-2), transpose(-2,-1), reshape]`,
whatever attributes the two reshape nodes carry and whatever the nodes'
flags are; a run of any other length is not matched either, so with a
registry holding only `pattern_1` such a chain is never rewritten. -/
theorem pattern_1_skips_pattern_2_chain (a b : List Attr) (c0 c1 c2 c3 c4 : Bool) :
    (windows 4 (pattern_2_chain a b c0 c1 c2 c3 c4)).length = 2 ∧
    (∀ w ∈ windows 4 (pattern_2_chain a b c0 c1 c2 c3 c4), pattern_match pattern_1 w = false) ∧
    (∀ w : TMPattern, w.length ≠ 4 → pattern_match pattern_1 w = false) := by
  refine ⟨rfl, ?_, ?_⟩
  · intro w hw
    have hw2 : w = [ OpTypeItem.mk "transpose" (ints [-2, -1]) c0,
                     OpTypeItem.mk "reshape" a c1,
                     OpTypeItem.mk "transpose" (ints [-3, -2]) c2,
                     OpTypeItem.mk "transpose" (ints [-2, -1]) c3 ] ∨
               w = [ OpTypeItem.mk "reshape" a c1,
                     OpTypeItem.mk "transpose" (ints [-3, -2]) c2,
                     OpTypeItem.mk "transpose" (ints [-2, -1]) c3,
                     OpTypeItem.mk "reshape" b c4 ] := by
      simpa [windows, pattern_2_chain, List.range, List.range.loop] using hw
    rcases hw2 with rfl | rfl
    · simp [pattern_match, pattern_1, sig_match]
    · simp [pattern_match, pattern_1, sig_match, ints]
  · intro w hw
    have : ¬ (pattern_1.length = w.length) := fun h => hw (by simpa [pattern_1] using h.symm)
    simp [pattern_match, this]

/-- Instance of `pattern_1_skips_pattern_2_chain`: the run starting at the
second node of a `pattern_2` chain ending in `reshape [1, 2166, 21]`. -/
theorem pattern_1_skips_pattern_2_chain_witness :
    pattern_match pattern_1
      [ OpTypeItem.mk "reshape" [] true,
        OpTypeItem.mk "transpose" (ints [-3, -2]) true,
        OpTypeItem.mk "transpose" (ints [-2, -1]) true,
        OpTypeItem.mk "reshape" (ints [1, 2166, 21]) true ] = false :=
  (pattern_1_skips_pattern_2_chain [] (ints [1, 2166, 21]) true true true true true).2.1
    _ (by decide)

/-- **C10.** Every signature of every pattern and every replacement of
`pattern_map`, and every signature of `pattern_4`, is named `"reshape"` or
`"transpose"`. -/
theorem op_names_recognized :
    (∀ e ∈ pattern_map,
      (∀ s ∈ e.1, s.op_name = "reshape" ∨ s.op_name = "transpose") ∧
      (∀ s ∈ e.2, s.op_name = "reshape" ∨ s.op_name = "transpose")) ∧
    (∀ s ∈ pattern_4, s.op_name = "reshape" ∨ s.op_name = "transpose") := by
  constructor <;> decide

/-- Instance of `op_names_recognized` at the first signature of `pattern_4`. -/
theorem op_names_recognized_witness :
    "transpose" = "reshape" ∨ "transpose" = "transpose" :=
  op_names_recognized.2 (OpTypeItem.mk "transpose" (ints [-2, -1]) true) (by decide)

/-- Searching two lists that are permutations of each other gives the same
first hit when any two members satisfying the test are equal. -/
theorem find_perm_of_unique {α : Type} (p : α → Bool) {l1 l2 : List α} (hperm : l1.Perm l2)
    (huniq : ∀ a ∈ l1, ∀ b ∈ l1, p a = true → p b = true → a = b) :
    l1.find? p = l2.find? p := by
  cases h1 : l1.find? p with
  | none =>
    symm
    rw [List.find?_eq_none] at h1 ⊢
    intro x hx
    exact h1 x (hperm.mem_iff.mpr hx)
  | some a =>
    have ha_mem : a ∈ l1 := List.mem_of_find?_eq_some h1
    have ha_p : p a = true := List.find?_some h1
    cases h2 : l2.find? p with
    | none =>
      rw [List.find?_eq_none] at h2
      exact absurd ha_p (h2 a (hperm.mem_iff.mp ha_mem))
    | some b =>
      have hb_mem : b ∈ l1 := hperm.mem_iff.mpr (List.mem_of_find?_eq_some h2)
      have hb_p : p b = true := List.find?_some h2
      rw [huniq a ha_mem b hb_mem ha_p hb_p]

/-- Any two entries of `pattern_map` at different positions that share a
pattern end in different attributes. -/
theorem pattern_map_variants_differ : pattern_map.Pairwise variants_differ := by
  unfold variants_differ
  decide

/-- The relation `variants_differ` is symmetric. -/
theorem variants_differ_symm {x y : TMPattern × TMPattern} (h : variants_differ x y) :
    variants_differ y x :=
  fun hxy hfa => h hxy.symm hfa.symm

/-- In a registry whose entries pairwise differ, two replacements registered
for one pattern that both end in the required shape are the same. -/
theorem variant_unique (pm : TMPatternPairs) (hpw : pm.Pairwise variants_differ)
    (pat : TMPattern) (shape : List Int) (a b : TMPattern)
    (ha : a ∈ replacements_for pm pat) (hb : b ∈ replacements_for pm pat)
    (hfa : final_attrs a = some (ints shape)) (hfb : final_attrs b = some (ints shape)) :
    a = b := by
  simp only [replacements_for, List.mem_map, List.mem_filter, decide_eq_true_eq] at ha hb
  obtain ⟨ea, ⟨hea_mem, hea_pat⟩, rfl⟩ := ha
  obtain ⟨eb, ⟨heb_mem, heb_pat⟩, rfl⟩ := hb
  by_contra hne
  have hne2 : ea ≠ eb := fun h => hne (by rw [h])
  have hsym : Symmetric variants_differ := fun _ _ h => variants_differ_symm h
  exact hpw.forall hsym hea_mem heb_mem hne2 (hea_pat.trans heb_pat.symm) (hfa.trans hfb.symm)

/-- The test of `scan_variants` holds of a replacement exactly when its final
attributes are the required shape. -/
theorem scan_test_iff (r : TMPattern) (shape : List Int) :
    (match r.getLast? with
      | some last => decide (last.attrs = ints shape)
      | none => false) = true ↔ final_attrs r = some (ints shape) := by
  unfold final_attrs
  cases r.getLast? <;> simp

/-- Entries at two different positions of a pairwise-differing registry
differ, whichever comes first. -/
theorem variants_differ_of_index (pm : TMPatternPairs) (hpw : pm.Pairwise variants_differ)
    (i j : Nat) (e1 e2 : TMPattern × TMPattern) (hij : i ≠ j)
    (h1 : pm[i]? = some e1) (h2 : pm[j]? = some e2) : variants_differ e1 e2 := by
  rw [List.pairwise_iff_getElem] at hpw
  obtain ⟨hi, rfl⟩ := List.getElem?_eq_some.mp h1
  obtain ⟨hj, rfl⟩ := List.getElem?_eq_some.mp h2
  rcases Nat.lt_or_gt_of_ne hij with hlt | hgt
  · exact hpw i j hi hj hlt
  · exact variants_differ_symm (hpw j i hj hi hgt)

/-- The selector gives the same result on two registries that are
permutations of each other when the entries pairwise differ. -/
theorem select_replacement_perm (pm1 pm2 : TMPatternPairs) (hperm : pm1.Perm pm2)
    (hpw : pm1.Pairwise variants_differ) (pat : TMPattern) (shape : List Int) :
    select_replacement pm1 pat shape = select_replacement pm2 pat shape := by
  have hr : (replacements_for pm1 pat).Perm (replacements_for pm2 pat) :=
    (hperm.filter _).map _
  have hscan : scan_variants (replacements_for pm1 pat) shape
      = scan_variants (replacements_for pm2 pat) shape := by
    unfold scan_variants
    apply find_perm_of_unique _ hr
    intro a ha b hb hpa hpb
    exact variant_unique pm1 hpw pat shape a b ha hb
      ((scan_test_iff a shape).mp hpa) ((scan_test_iff b shape).mp hpb)
  unfold select_replacement
  rcases h1 : replacements_for pm1 pat with _ | ⟨r, _ | ⟨r2, t⟩⟩
  · rw [h1] at hr
    rw [← hr.nil_eq]
  · rw [h1] at hr
    rw [List.perm_singleton.mp hr.symm]
  · rcases h2 : replacements_for pm2 pat with _ | ⟨q, _ | ⟨q2, u⟩⟩
    · rw [h1, h2] at hr
      exact absurd hr.length_eq (by simp)
    · rw [h1, h2] at hr
      exact absurd hr.length_eq (by simp)
    · rw [h1, h2] at hscan
      exact hscan

/-- **C11.** Entries of `pattern_map` that share a pattern differ in their
replacement: any two entries at different positions with the same pattern
end in different attributes.  Hence for every pattern and every required
output shape at most one registered variant has that shape, and the selector
gives the same result on every reordering of the registry. -/
theorem shared_pattern_variants_distinct :
    (∀ (i j : Nat) (e1 e2 : TMPattern × TMPattern), i ≠ j →
      pattern_map[i]? = some e1 → pattern_map[j]? = some e2 → e1.1 = e2.1 →
      final_attrs e1.2 ≠ final_attrs e2.2) ∧
    (∀ (pat : TMPattern) (shape : List Int),
      ((replacements_for pattern_map pat).filter
        (fun r => decide (final_attrs r = some (ints shape)))).length ≤ 1) ∧
    (∀ pm : TMPatternPairs, pm.Perm pattern_map → ∀ (pat : TMPattern) (shape : List Int),
      select_replacement pm pat shape = select_replacement pattern_map pat shape) := by
  refine ⟨?_, ?_, ?_⟩
  · intro i j e1 e2 hij h1 h2
    exact variants_differ_of_index pattern_map pattern_map_variants_differ i j e1 e2 hij h1 h2
  · intro pat shape
    rcases hf : (replacements_for pattern_map pat).filter
        (fun r => decide (final_attrs r = some (ints shape))) with _ | ⟨a, _ | ⟨b, t⟩⟩
    · simp
    · simp
    · exfalso
      have hpw : (replacements_for pattern_map pat).Pairwise
          (fun x y => final_attrs x ≠ final_attrs y) := by
        unfold replacements_for
        rw [List.pairwise_map, List.pairwise_filter]
        exact pattern_map_variants_differ.imp (fun h hx hy => h (hx.trans hy.symm))
      have hpw2 := hpw.filter (fun r => decide (final_attrs r = some (ints shape)))
      rw [hf] at hpw2
      have hab : final_attrs a ≠ final_attrs b :=
        (List.pairwise_cons.mp hpw2).1 b (List.mem_cons_self b t)
      have ha : a ∈ (replacements_for pattern_map pat).filter
          (fun r => decide (final_attrs r = some (ints shape))) := by
        rw [hf]; exact List.mem_cons_self a _
      have hb : b ∈ (replacements_for pattern_map pat).filter
          (fun r => decide (final_attrs r = some (ints shape))) := by
        rw [hf]; exact List.mem_cons_of_mem a (List.mem_cons_self b t)
      have ha2 := of_decide_eq_true (List.mem_filter.mp ha).2
      have hb2 := of_decide_eq_true (List.mem_filter.mp hb).2
      exact hab (ha2.trans hb2.symm)
  · intro pm hperm pat shape
    symm
    exact select_replacement_perm pattern_map pm hperm.symm pattern_map_variants_differ pat shape

/-- Instance of `shared_pattern_variants_distinct`: on the reversed registry
the selector still resolves `pattern_2` with required shape `[1, 600, 21]`
to the single reshape with that shape. -/
theorem shared_pattern_variants_distinct_witness :
    select_replacement pattern_map.reverse pattern_2 [1, 600, 21]
      = select_replacement pattern_map pattern_2 [1, 600, 21] ∧
    select_replacement pattern_map pattern_2 [1, 600, 21]
      = some [OpTypeItem.mk "reshape" (ints [1, 600, 21]) false] :=
  ⟨shared_pattern_variants_distinct.2.2 pattern_map.reverse (List.reverse_perm pattern_map)
    pattern_2 [1, 600, 21], by decide⟩

/-- **C12.** In each of the four declared patterns every `"reshape"`
signature has empty attributes and a cleared strict flag, and every
`"transpose"` signature has the strict flag set.  So a pattern-side reshape
matches a node exactly when the node is named `"reshape"`, whatever its
attributes, and a pattern-side transpose matches a node exactly when the
node is named `"transpose"` and carries the same attributes. -/
theorem pattern_side_strictness :
    (∀ p ∈ builtin_patterns, ∀ s ∈ p,
      (s.op_name = "reshape" → s.attrs = [] ∧ s.check_attrs = false) ∧
      (s.op_name = "transpose" → s.check_attrs = true)) ∧
    (∀ p ∈ builtin_patterns, ∀ s ∈ p, s.op_name = "reshape" →
      ∀ node : OpTypeItem, sig_match s node = true ↔ node.op_name = "reshape") ∧
    (∀ p ∈ builtin_patterns, ∀ s ∈ p, s.op_name = "transpose" →
      ∀ node : OpTypeItem,
        sig_match s node = true ↔ node.op_name = "transpose" ∧ node.attrs = s.attrs) := by
  have h1 : ∀ p ∈ builtin_patterns, ∀ s ∈ p,
      (s.op_name = "reshape" → s.attrs = [] ∧ s.check_attrs = false) ∧
      (s.op_name = "transpose" → s.check_attrs = true) := by decide
  refine ⟨h1, ?_, ?_⟩
  · intro p hp s hs hname node
    have hflag := ((h1 p hp s hs).1 hname).2
    simp only [sig_match, hname, hflag, Bool.not_false, Bool.true_or, Bool.and_true,
      decide_eq_true_eq]
    exact eq_comm
  · intro p hp s hs hname node
    have hflag := (h1 p hp s hs).2 hname
    simp only [sig_match, hname, hflag, Bool.not_true, Bool.false_or, Bool.and_eq_true,
      decide_eq_true_eq]
    constructor
    · rintro ⟨hn, ha⟩
      exact ⟨hn.symm, ha.symm⟩
    · rintro ⟨hn, ha⟩
      exact ⟨hn.symm, ha.symm⟩

/-- Instance of `pattern_side_strictness`: the first signature of `pattern_1`,
a reshape without attributes, matches a reshape node that carries the shape
`[1, 2166, 21]`. -/
theorem pattern_side_strictness_witness :
    sig_match (OpTypeItem.mk "reshape" (ints []) false)
      (OpTypeItem.mk "reshape" (ints [1, 2166, 21]) true) = true :=
  (pattern_side_strictness.2.1 pattern_1 (by decide)
    (OpTypeItem.mk "reshape" (ints []) false) (by decide) rfl
    (OpTypeItem.mk "reshape" (ints [1, 2166, 21]) true)).mpr rfl

/-- **C13, as stated, fails.** The second signature of the reversed
`pattern_1` is `transpose(-2,-1)` and the second signature of `pattern_1` is
`transpose(-3,-1)`; both are strict and they do not match each other.
`pattern_1` matches its own chain while the reversed pattern does not, so
the two do not match the same chains. -/
theorem pattern_1_reverse_mismatch :
    pattern_1.reverse[1]? = some (OpTypeItem.mk "transpose" (ints [-2, -1]) true) ∧
    pattern_1[1]? = some (OpTypeItem.mk "transpose" (ints [-3, -1]) true) ∧
    sig_match (OpTypeItem.mk "transpose" (ints [-2, -1]) true)
      (OpTypeItem.mk "transpose" (ints [-3, -1]) true) = false ∧
    sig_match (OpTypeItem.mk "transpose" (ints [-3, -1]) true)
      (OpTypeItem.mk "transpose" (ints [-2, -1]) true) = false ∧
    pattern_match pattern_1 pattern_1 = true ∧
    pattern_match pattern_1.reverse pattern_1 = false := by
  decide

/-- **C13, amended.** Reversing `pattern_1` leaves the operator name and the
strict flag at every position unchanged.  The signatures of the reversed
pattern and of `pattern_1` match each other at the reshape positions 0 and 3
and not at the transpose positions 1 and 2, where the strict attributes are
`[-2,-1]` against `[-3,-1]`. -/
theorem pattern_1_reverse_names_only :
    pattern_1.reverse.map (fun s => s.op_name) = pattern_1.map (fun s => s.op_name) ∧
    pattern_1.reverse.map (fun s => s.check_attrs) = pattern_1.map (fun s => s.check_attrs) ∧
    (pattern_1.reverse.zip pattern_1).map
        (fun pq => sig_match pq.1 pq.2 && sig_match pq.2 pq.1)
      = [true, false, false, true] ∧
    pattern_1.reverse.map (fun s => s.attrs)
      = [ints [], ints [-2, -1], ints [-3, -1], ints []] ∧
    pattern_1.map (fun s => s.attrs)
      = [ints [], ints [-3, -1], ints [-2, -1], ints []] := by
  decide

/-- **C14.** `pattern_3` and `pattern_4` are direction-asymmetric: the reversed
pattern does not match the pattern's own chain, and a position exists at
which the reversed and the original pattern exclude each other (different
names, or strict signatures with different attributes). -/
theorem pattern_3_4_asymmetric :
    pattern_match pattern_3.reverse pattern_3 = false ∧
    pattern_match pattern_4.reverse pattern_4 = false ∧
    conflict_at pattern_3.reverse pattern_3 0 = true ∧
    conflict_at pattern_4.reverse pattern_4 1 = true := by
  decide

/-- **C15.** Round trip signature, operator, signature: for a signature that
is named `"transpose"` with exactly two integer attributes, or has any other
name, `as_op_type` builds an operator, and building a signature from that
operator with any flag gives back the same name and the same attributes. -/
theorem as_op_type_round_trip (s : OpTypeItem) (c : Bool)
    (h : (s.op_name = "transpose" ∧ is_two_ints s.attrs = true) ∨ s.op_name ≠ "transpose") :
    ∃ op, OpTypeItem.as_op_type s = some op ∧
      OpTypeItem.of_op_type op c = some ⟨s.op_name, s.attrs, c⟩ := by
  obtain ⟨name, attrs, flag⟩ := s
  rcases h with ⟨hname, htwo⟩ | hname
  · simp only at hname htwo
    subst hname
    match attrs, htwo with
    | [Attr.int d0, Attr.int d1], _ =>
      refine ⟨graphlib.OpType.create "transpose" []
        [("dim0", Attr.int d0), ("dim1", Attr.int d1)], ?_, ?_⟩
      · simp [OpTypeItem.as_op_type]
      · simp [OpTypeItem.of_op_type, graphlib.OpType.create, graphlib.OpType.type,
          graphlib.OpType.name, graphlib.OpType.attr_as_int, ops.kind_of_name, List.lookup]
  · simp only at hname
    refine ⟨graphlib.OpType.create name attrs [], ?_, ?_⟩
    · simp [OpTypeItem.as_op_type, hname]
    · have hkind : ops.kind_of_name name ≠ ops.OpType.Transpose := by
        unfold ops.kind_of_name
        rw [if_neg hname]
        split <;> simp
      simp [OpTypeItem.of_op_type, graphlib.OpType.create, graphlib.OpType.type,
        graphlib.OpType.name, hkind]

/-- Instance of `as_op_type_round_trip` at `transpose(-3, -1)` with the strict
flag set, read back with the flag cleared. -/
theorem as_op_type_round_trip_witness :
    ∃ op, OpTypeItem.as_op_type (OpTypeItem.mk "transpose" (ints [-3, -1]) true) = some op ∧
      OpTypeItem.of_op_type op false
        = some (OpTypeItem.mk "transpose" (ints [-3, -1]) false) :=
  as_op_type_round_trip (OpTypeItem.mk "transpose" (ints [-3, -1]) true) false
    (Or.inl ⟨rfl, rfl⟩)

/-- A pattern that matches a chain matches it signature by signature: at
every position of the pattern the chain has a signature, and the two match. -/
theorem pattern_match_at (pat w : TMPattern) (h : pattern_match pat w = true)
    (i : Nat) (a : OpTypeItem) (ha : pat[i]? = some a) :
    ∃ n, w[i]? = some n ∧ sig_match a n = true := by
  simp only [pattern_match, Bool.and_eq_true, decide_eq_true_eq, List.all_eq_true] at h
  obtain ⟨hlen, hall⟩ := h
  obtain ⟨hi, _⟩ := List.getElem?_eq_some.mp ha
  have hw : w[i]? = some (w.get ⟨i, hlen ▸ hi⟩) := List.getElem?_eq_getElem (hlen ▸ hi)
  refine ⟨w.get ⟨i, hlen ▸ hi⟩, hw, ?_⟩
  have hz : (pat.zip w)[i]? = some (a, w.get ⟨i, hlen ▸ hi⟩) :=
    List.getElem?_zip_eq_some.mpr ⟨ha, hw⟩
  exact hall _ (List.getElem?_mem hz)

/-- Two patterns that exclude each other at some position never both match at
one anchor. -/
theorem conflict_excludes (p q chain : TMPattern) (i : Nat)
    (hc : conflict_at p q i = true) :
    ¬ (matches_at_anchor p chain = true ∧ matches_at_anchor q chain = true) := by
  rintro ⟨hp, hq⟩
  unfold conflict_at at hc
  split at hc
  · next a b ha hb =>
    have hip : i < p.length := (List.getElem?_eq_some.mp ha).1
    have hiq : i < q.length := (List.getElem?_eq_some.mp hb).1
    obtain ⟨n, hn, hmn⟩ := pattern_match_at p _ hp i a ha
    obtain ⟨m, hm, hmm⟩ := pattern_match_at q _ hq i b hb
    rw [List.getElem?_take_of_lt hip] at hn
    rw [List.getElem?_take_of_lt hiq] at hm
    have hnm : n = m := Option.some.inj (hn.symm.trans hm)
    subst hnm
    simp only [sig_match, Bool.and_eq_true, Bool.or_eq_true, Bool.not_eq_true',
      decide_eq_true_eq] at hmn hmm
    simp only [Bool.or_eq_true, Bool.and_eq_true, decide_eq_true_eq] at hc
    rcases hc with hname | ⟨⟨hfa, hfb⟩, hattrs⟩
    · exact hname (hmn.1.trans hmm.1.symm)
    · rcases hmn.2 with hfa2 | haeq
      · rw [hfa] at hfa2; cases hfa2
      · rcases hmm.2 with hfb2 | hbeq
        · rw [hfb] at hfb2; cases hfb2
        · exact hattrs (haeq.trans hbeq.symm)
  · cases hc

/-- Any two different patterns of `pattern_map` exclude each other at some
position within both. -/
theorem registered_patterns_conflict :
    ∀ e1 ∈ pattern_map, ∀ e2 ∈ pattern_map, e1.1 ≠ e2.1 →
      ∃ i, i < min e1.1.length e2.1.length ∧ conflict_at e1.1 e2.1 i = true := by
  decide

/-- **C16.** The registered patterns are mutually exclusive at an anchor: any
two different patterns occurring in `pattern_map` have a position, within
both, at which the names differ or both signatures are strict with different
attributes.  Hence no chain of node signatures is matched at its anchor by
two different registered patterns, and the pattern that applies is the same
under every reordering of the registry. -/
theorem patterns_mutually_exclusive :
    (∀ e1 ∈ pattern_map, ∀ e2 ∈ pattern_map, e1.1 ≠ e2.1 →
      ∃ i, i < min e1.1.length e2.1.length ∧ conflict_at e1.1 e2.1 i = true) ∧
    (∀ chain : TMPattern, ∀ e1 ∈ pattern_map, ∀ e2 ∈ pattern_map, e1.1 ≠ e2.1 →
      ¬ (matches_at_anchor e1.1 chain = true ∧ matches_at_anchor e2.1 chain = true)) ∧
    (∀ pm : TMPatternPairs, pm.Perm pattern_map → ∀ chain : TMPattern,
      first_matching_pattern pm chain = first_matching_pattern pattern_map chain) := by
  have hexcl : ∀ chain : TMPattern, ∀ e1 ∈ pattern_map, ∀ e2 ∈ pattern_map, e1.1 ≠ e2.1 →
      ¬ (matches_at_anchor e1.1 chain = true ∧ matches_at_anchor e2.1 chain = true) := by
    intro chain e1 h1 e2 h2 hne
    obtain ⟨i, _, hc⟩ := registered_patterns_conflict e1 h1 e2 h2 hne
    exact conflict_excludes e1.1 e2.1 chain i hc
  refine ⟨registered_patterns_conflict, hexcl, ?_⟩
  intro pm hperm chain
  unfold first_matching_pattern
  symm
  apply find_perm_of_unique _ (hperm.symm.map Prod.fst)
  intro a ha b hb hpa hpb
  obtain ⟨ea, hea, rfl⟩ := List.mem_map.mp ha
  obtain ⟨eb, heb, rfl⟩ := List.mem_map.mp hb
  by_contra hne
  exact hexcl chain ea hea eb heb hne ⟨hpa, hpb⟩

/-- Instance of `patterns_mutually_exclusive`: `pattern_2` and `pattern_3`
exclude each other within their common length, and on the reversed registry
the pattern applying to the chain `pattern_3` is still `pattern_3`. -/
theorem patterns_mutually_exclusive_witness :
    (∃ i, i < min pattern_2.length pattern_3.length ∧
      conflict_at pattern_2 pattern_3 i = true) ∧
    first_matching_pattern pattern_map.reverse pattern_3
      = first_matching_pattern pattern_map pattern_3 ∧
    first_matching_pattern pattern_map pattern_3 = some pattern_3 :=
  ⟨patterns_mutually_exclusive.1 (pattern_2, replace_2_0) (by decide)
      (pattern_3, replace_3_0) (by decide) (by decide),
   patterns_mutually_exclusive.2.2 pattern_map.reverse (List.reverse_perm pattern_map)
      pattern_3,
   by decide⟩

/-- **C17.** `pattern_4` is declared but has no replacement.  `pattern_map` has
27 entries; every entry's pattern is `pattern_1`, `pattern_2` or `pattern_3`,
with 1, 16 and 10 entries; no entry's pattern is `pattern_4`.  A chain of
four nodes `[transpose(-2,-1), reshape, transpose(-3,-2), transpose(-2,-1)]`
is matched by no registered pattern, whatever the reshape's attributes and
the nodes' flags are. -/
theorem pattern_4_unregistered :
    pattern_map.length = 27 ∧
    (∀ e ∈ pattern_map, e.1 = pattern_1 ∨ e.1 = pattern_2 ∨ e.1 = pattern_3) ∧
    (replacements_for pattern_map pattern_1).length = 1 ∧
    (replacements_for pattern_map pattern_2).length = 16 ∧
    (replacements_for pattern_map pattern_3).length = 10 ∧
    (∀ e ∈ pattern_map, e.1 ≠ pattern_4) ∧
    replacements_for pattern_map pattern_4 = [] ∧
    (∀ (a : List Attr) (c0 c1 c2 c3 : Bool), ∀ e ∈ pattern_map,
      pattern_match e.1 (pattern_4_chain a c0 c1 c2 c3) = false ∧
      matches_at_anchor e.1 (pattern_4_chain a c0 c1 c2 c3) = false) := by
  have hkeys : ∀ e ∈ pattern_map, e.1 = pattern_1 ∨ e.1 = pattern_2 ∨ e.1 = pattern_3 := by
    decide
  refine ⟨rfl, hkeys, by decide, by decide, by decide, by decide, by decide, ?_⟩
  intro a c0 c1 c2 c3 e he
  rcases hkeys e he with h | h | h <;> rw [h] <;>
    simp [pattern_match, matches_at_anchor, pattern_4_chain, pattern_1, pattern_2, pattern_3,
      sig_match]

/-- Instance of `pattern_4_unregistered`: `pattern_1` does not match the chain
`pattern_4` itself. -/
theorem pattern_4_unregistered_witness :
    pattern_match pattern_1 (pattern_4_chain (ints []) true false true true) = false :=
  ((pattern_4_unregistered.2.2.2.2.2.2.2 (ints []) true false true true)
    (pattern_1, replace_1) (by decide)).1

end passes

end tt
